import Mathlib

/-!
Verification of the GTEC-ETL repository against its specification.

The development shallowly embeds the parts of the repository that the claims
are about:

* `src/sparql/v0.7/rdflib_list_dataset_variables.py` — the hand-rolled
  triple-pattern join `list_dataset_variables`, embedded over a graph given
  as a list of (subject, predicate, object) string triples.  Python `dict`s
  become associative lists with insert-or-replace semantics, Python `dict`
  subscripting becomes `dictGet` (which fails like a `KeyError` when the key
  is absent), and Python `list.sort(key=...)` becomes a stable insertion
  sort with the same comparison on keys.
* `src/bin/gtex_v7_to_dats.py` — `make_consent_group`, the subject indexing
  step of `add_restricted_data`, the "all subjects" StudyGroup construction,
  the single-study selection of `main`, and the `--max_output_samples`
  sample-limiting step.
* `src/bin/topmed_to_dats.py` — `add_study_vars`.

The DATS object layer (`ccmm.dats.datsobj`, not part of the four source
files) is modelled from the spec where the sources call into it: a `DatsObj`
is a typed record of properties, and `getIdRef()` yields a Reference that
carries only the identity of the referenced node.
-/

/-- Decidable equality for `Except`, used to evaluate the embedded
functions on concrete inputs. -/
instance {ε α : Type} [DecidableEq ε] [DecidableEq α] : DecidableEq (Except ε α) :=
  fun x y =>
    match x, y with
    | .ok a, .ok b =>
      if h : a = b then .isTrue (by rw [h]) else .isFalse (by intro hh; cases hh; exact h rfl)
    | .error a, .error b =>
      if h : a = b then .isTrue (by rw [h]) else .isFalse (by intro hh; cases hh; exact h rfl)
    | .ok _, .error _ => .isFalse (by intro hh; cases hh)
    | .error _, .ok _ => .isFalse (by intro hh; cases hh)

/-! ### Terms, triples and graphs (rdflib model) -/

/-- An RDF term (URI, blank node or literal), modelled as a string. -/
abbrev Term := String

/-- A (subject, predicate, object) triple. -/
abbrev Triple := Term × Term × Term

/-- A graph is an enumeration of its set of triples. -/
abbrev Graph := List Triple

/-- Does triple `t` match the pattern `(ps, pp, po)`, where `none` is the
rdflib wildcard `None`? -/
def tripleMatches (ps pp po : Option Term) (t : Triple) : Bool :=
  (match ps with | none => true | some s => t.1 == s) &&
  (match pp with | none => true | some p => t.2.1 == p) &&
  (match po with | none => true | some o => t.2.2 == o)

/-- `g.triples((ps, pp, po))`: all triples of `g` matching the pattern. -/
def triples (g : Graph) (ps pp po : Option Term) : List Triple :=
  g.filter (tripleMatches ps pp po)

/-! ### Python dictionaries

An insertion-ordered mapping with insert-or-replace semantics; subscripting
a missing key is a `KeyError`. -/

/-- `d[k]` as an `Option`: the value bound to `k`, if any. -/
def dictLookup {α : Type} : List (Term × α) → Term → Option α
  | [], _ => none
  | p :: rest, k => if p.1 == k then some p.2 else dictLookup rest k

/-- `d[k] = v`: bind `k` to `v`, replacing an existing binding in place. -/
def dictInsert {α : Type} : List (Term × α) → Term → α → List (Term × α)
  | [], k, v => [(k, v)]
  | p :: rest, k, v => if p.1 == k then (k, v) :: rest else p :: dictInsert rest k v

/-- `k in d`. -/
def dictContains {α : Type} (d : List (Term × α)) (k : Term) : Bool :=
  (dictLookup d k).isSome

/-- `d[k]` as an expression: raises `KeyError` when `k` is absent. -/
def dictGet {α : Type} (d : List (Term × α)) (k : Term) : Except String α :=
  match dictLookup d k with
  | some v => .ok v
  | none => .error "KeyError"

/-! ### String comparison

Python compares strings lexicographically by code point; the embedded
sorts use this executable comparison as their key order. -/

/-- Lexicographic comparison of character lists by code point. -/
def charsLe : List Char → List Char → Bool
  | [], _ => true
  | _ :: _, [] => false
  | a :: as, b :: bs =>
    if a.toNat < b.toNat then true
    else if b.toNat < a.toNat then false
    else charsLe as bs

/-- `a <= b` on Python strings. -/
def strLe (a b : String) : Bool := charsLe a.data b.data

/-! ### Term constants

Modelled from the spec: the constants live in `rdflib_util.py`, which is not
among the four source files; their rôles are documented by the SPARQL
comments in `rdflib_list_dataset_variables.py`. -/

/-- `rdf:type` (`a` in SPARQL). -/
def RDF_TYPE_TERM : Term := "rdf:type"

/-- obo:IAO_0000100, "data set". -/
def DATS_DATASET_TERM : Term := "obo:IAO_0000100"

/-- obo:IAO_0000577, "centrally registered identifier symbol". -/
def CENTRAL_ID_TERM : Term := "obo:IAO_0000577"

/-- obo:BFO_0000051, "has part". -/
def HAS_PART_TERM : Term := "obo:BFO_0000051"

/-- obo:STATO_0000258, "variable". -/
def DATS_DIMENSION_TERM : Term := "obo:STATO_0000258"

/-- obo:IAO_0000300, "textual entity". -/
def DESCR_TERM : Term := "obo:IAO_0000300"

/-- obo:IAO_0000590, "a textual entity that denotes a particular in reality". -/
def NAME_TERM : Term := "obo:IAO_0000590"

/-- sdo:identifier. -/
def SDO_IDENT_TERM : Term := "sdo:identifier"

/-- sdo:value. -/
def SDO_VALUE_TERM : Term := "sdo:value"

/-! ### `list_dataset_variables` (rdflib_list_dataset_variables.py)

Each stage below embeds one commented block of the Python function; nested
`for` loops over `g.triples(...)` become folds over the flattened sequence
of iterations, in the same order. -/

/-- Line 38: `all_datasets = [s for (s,p,o) in g.triples((None, None, DATS_DATASET_TERM))]`.
Note that the predicate position is a wildcard, not `rdf:type`. -/
def all_datasets (g : Graph) : List Term :=
  (triples g none none (some DATS_DATASET_TERM)).map (·.1)

/-- The values `o2` swept by the nested loops
`for (s,p,o) in g.triples((x, CENTRAL_ID_TERM, None)):
  for (s2,p2,o2) in g.triples((o, SDO_IDENT_TERM, None))`, in order. -/
def idValsOf (g : Graph) (x : Term) : List Term :=
  (triples g (some x) (some CENTRAL_ID_TERM) none).flatMap
    (fun t => (triples g (some t.2.2) (some SDO_IDENT_TERM) none).map (·.2.2))

/-- The objects of `g.triples((x, DESCR_TERM, None))`, in order. -/
def descrValsOf (g : Graph) (x : Term) : List Term :=
  (triples g (some x) (some DESCR_TERM) none).map (·.2.2)

/-- The values swept by
`for (s,p,o) in g.triples((x, NAME_TERM, None)):
  for (s2,p2,o2) in g.triples((o, SDO_VALUE_TERM, None))`, in order. -/
def nameValsOf (g : Graph) (x : Term) : List Term :=
  (triples g (some x) (some NAME_TERM) none).flatMap
    (fun t => (triples g (some t.2.2) (some SDO_VALUE_TERM) none).map (·.2.2))

/-- Lines 56-63: build `dataset_ids` (last write wins, as in a Python dict)
and the list `datasets` of members of `all_datasets` that obtained an id. -/
def datasetIdsAndList (g : Graph) : List (Term × Term) × List Term :=
  (all_datasets g).foldl
    (fun acc d =>
      let ids := (idValsOf g d).foldl (fun ids v => dictInsert ids d v) acc.1
      (ids, if dictContains ids d then acc.2 ++ [d] else acc.2))
    ([], [])

/-- Line 66: `[d for d in datasets if (dataset_id is None) or
(Literal(dataset_id) == dataset_ids[d])]`.  When `dataset_id` is `None` the
dictionary is not subscripted (Python `or` short-circuits). -/
def filterByDatasetId (ids : List (Term × Term)) (qid : Option Term) :
    List Term → Except String (List Term)
  | [] => .ok []
  | d :: rest =>
    match qid with
    | none =>
      match filterByDatasetId ids none rest with
      | .error e => .error e
      | .ok r => .ok (d :: r)
    | some q =>
      match dictGet ids d with
      | .error e => .error e
      | .ok i =>
        match filterByDatasetId ids (some q) rest with
        | .error e => .error e
        | .ok r => .ok (if q == i then d :: r else r)

/-- Lines 87-90: the dimensions of dataset `d` — objects `o` of
`(d, HAS_PART_TERM, o)` triples such that `(o, RDF_TYPE_TERM,
DATS_DIMENSION_TERM)` is in the graph, once per matching pair of triples. -/
def dimsOf (g : Graph) (d : Term) : List Term :=
  (triples g (some d) (some HAS_PART_TERM) none).flatMap
    (fun t => (triples g (some t.2.2) (some RDF_TYPE_TERM) (some DATS_DIMENSION_TERM)).map
      (fun _ => t.2.2))

/-- Lines 85-91: `dataset_dims[d] = dims` for each `d` in `datasets`. -/
def datasetDimsDict (g : Graph) (ds : List Term) : List (Term × List Term) :=
  ds.foldl (fun dd d => dictInsert dd d (dimsOf g d)) []

/-- Lines 109-129 (shared shape of the three attribute dictionaries):
`for d in datasets: for dim in dataset_dims[d]: insert every extracted value
under key dim`.  `dataset_dims[d]` is a dict subscript and can in principle
raise. -/
def buildDimDictM (extract : Term → List Term) (dd : List (Term × List Term)) :
    List Term → List (Term × Term) → Except String (List (Term × Term))
  | [], acc => .ok acc
  | d :: rest, acc =>
    match dictGet dd d with
    | .error e => .error e
    | .ok dims =>
      buildDimDictM extract dd rest
        (dims.foldl (fun acc2 dim =>
          (extract dim).foldl (fun acc3 v => dictInsert acc3 dim v) acc2) acc)

/-- Line 146: `[{"d": d, "i": dataset_ids[d]} for d in datasets if d in dataset_ids]`. -/
def datasetsWithIds (ids : List (Term × Term)) :
    List Term → Except String (List (Term × Term))
  | [] => .ok []
  | d :: rest =>
    if dictContains ids d then
      match dictGet ids d with
      | .error e => .error e
      | .ok i =>
        match datasetsWithIds ids rest with
        | .error e => .error e
        | .ok r => .ok ((d, i) :: r)
    else datasetsWithIds ids rest

/-- A row of `dims_with_atts` (line 154), fields in Python literal order. -/
structure Dwa where
  d : Term
  descr : Term
  id : Term
  name : Term
deriving DecidableEq

/-- An output row of the query (line 157). -/
structure Row where
  study : Term
  var_dbgap_id : Term
  var_name : Term
  var_descr : Term
deriving DecidableEq

/-- The sort key relation of line 147: sort `datasets_with_ids` by `x["i"]`. -/
abbrev dwiLe (a b : Term × Term) : Prop := strLe a.2 b.2 = true

/-- The sort key relation of line 155: sort `dims_with_atts` by `x["id"]`. -/
abbrev dwaLe (a b : Dwa) : Prop := strLe a.id b.id = true

/-- Line 154: `[{"d": d, "descr": dim_descrs[d], "id": dim_ids[d],
"name": dim_names[d]} for d in dims if d in dim_ids]`.  The guard only
checks `dim_ids`; the `dim_descrs[d]` and `dim_names[d]` subscripts can
raise `KeyError` (the source comments this: "may still fail if the
description or name are missing"). -/
def dimsWithAtts (descrs dimids dimnames : List (Term × Term)) :
    List Term → Except String (List Dwa)
  | [] => .ok []
  | dim :: rest =>
    if dictContains dimids dim then
      match dictGet descrs dim with
      | .error e => .error e
      | .ok descr =>
        match dictGet dimids dim with
        | .error e => .error e
        | .ok i =>
          match dictGet dimnames dim with
          | .error e => .error e
          | .ok nm =>
            match dimsWithAtts descrs dimids dimnames rest with
            | .error e => .error e
            | .ok r => .ok (⟨dim, descr, i, nm⟩ :: r)
    else dimsWithAtts descrs dimids dimnames rest

/-- Lines 150-157, one iteration of `for ds in datasets_with_ids`: look up
the dimensions, build `dims_with_atts`, sort by `x["id"]`, and emit one row
per surviving dimension. -/
def rowsForDataset (dd : List (Term × List Term))
    (descrs dimids dimnames : List (Term × Term)) (di : Term × Term) :
    Except String (List Row) :=
  match dictGet dd di.1 with
  | .error e => .error e
  | .ok dims =>
    match dimsWithAtts descrs dimids dimnames dims with
    | .error e => .error e
    | .ok dwa =>
      let dwaSorted := List.insertionSort dwaLe dwa
      .ok (dwaSorted.map (fun x => ⟨di.2, x.id, x.name, x.descr⟩))

/-- Lines 150-157: `variables_l` accumulated across `datasets_with_ids`. -/
def buildRows (dd : List (Term × List Term))
    (descrs dimids dimnames : List (Term × Term)) :
    List (Term × Term) → Except String (List Row)
  | [] => .ok []
  | di :: rest =>
    match rowsForDataset dd descrs dimids dimnames di with
    | .error e => .error e
    | .ok b =>
      match buildRows dd descrs dimids dimnames rest with
      | .error e => .error e
      | .ok r => .ok (b ++ r)

/-- `list_dataset_variables(g, dataset_id)` of
rdflib_list_dataset_variables.py, stage by stage in source order. -/
def list_dataset_variables (g : Graph) (dataset_id : Option Term) :
    Except String (List Row) :=
  let p := datasetIdsAndList g
  match filterByDatasetId p.1 dataset_id p.2 with
  | .error e => .error e
  | .ok datasets =>
    let dataset_dims := datasetDimsDict g datasets
    match buildDimDictM (descrValsOf g) dataset_dims datasets [] with
    | .error e => .error e
    | .ok dim_descrs =>
      match buildDimDictM (idValsOf g) dataset_dims datasets [] with
      | .error e => .error e
      | .ok dim_ids =>
        match buildDimDictM (nameValsOf g) dataset_dims datasets [] with
        | .error e => .error e
        | .ok dim_names =>
          match datasetsWithIds p.1 datasets with
          | .error e => .error e
          | .ok dwis =>
            buildRows dataset_dims dim_descrs dim_ids dim_names
              (List.insertionSort dwiLe dwis)

/-! ### Structural predicates on graphs, used to state Claim C3 -/

/-- Is `x` declared a Dimension by an `rdf:type` triple? -/
def isDimension (g : Graph) (x : Term) : Bool :=
  !(triples g (some x) (some RDF_TYPE_TERM) (some DATS_DIMENSION_TERM)).isEmpty

/-- Does `x` have a resolvable identifier
(`CENTRAL_ID_TERM` then `SDO_IDENT_TERM`)? -/
def idChain (g : Graph) (x : Term) : Bool := !(idValsOf g x).isEmpty

/-- Does `x` have a description triple? -/
def hasDescr (g : Graph) (x : Term) : Bool := !(descrValsOf g x).isEmpty

/-- Does `x` have a resolvable name (`NAME_TERM` then `SDO_VALUE_TERM`)? -/
def hasNameVal (g : Graph) (x : Term) : Bool := !(nameValsOf g x).isEmpty

/-- Every typed Dimension of the graph that has a resolvable identifier
also has a description and a name value. -/
def allDimsComplete (g : Graph) : Bool :=
  (g.map (·.1)).all fun x =>
    !(isDimension g x && idChain g x) || (hasDescr g x && hasNameVal g x)

/-! ### Example graphs -/

/-- A well-formed example graph: one typed Dataset with two fully-attributed
Dimensions, listed in reverse order of their dbGaP accessions. -/
def gEx : Graph := [
  ("ds1", RDF_TYPE_TERM, DATS_DATASET_TERM),
  ("ds1", CENTRAL_ID_TERM, "ds1id"),
  ("ds1id", SDO_IDENT_TERM, "phs000001.v1"),
  ("ds1", HAS_PART_TERM, "dimB"),
  ("dimB", RDF_TYPE_TERM, DATS_DIMENSION_TERM),
  ("dimB", DESCR_TERM, "descr B"),
  ("dimB", CENTRAL_ID_TERM, "dimBid"),
  ("dimBid", SDO_IDENT_TERM, "phv2"),
  ("dimB", NAME_TERM, "dimBnm"),
  ("dimBnm", SDO_VALUE_TERM, "varB"),
  ("ds1", HAS_PART_TERM, "dimA"),
  ("dimA", RDF_TYPE_TERM, DATS_DIMENSION_TERM),
  ("dimA", DESCR_TERM, "descr A"),
  ("dimA", CENTRAL_ID_TERM, "dimAid"),
  ("dimAid", SDO_IDENT_TERM, "phv1"),
  ("dimA", NAME_TERM, "dimAnm"),
  ("dimAnm", SDO_VALUE_TERM, "varA")
]

/-- A graph whose only Dimension has an identifier but no description. -/
def gBadDim : Graph := [
  ("ds1", RDF_TYPE_TERM, DATS_DATASET_TERM),
  ("ds1", CENTRAL_ID_TERM, "ds1id"),
  ("ds1id", SDO_IDENT_TERM, "phs000001.v1"),
  ("ds1", HAS_PART_TERM, "dimC"),
  ("dimC", RDF_TYPE_TERM, DATS_DIMENSION_TERM),
  ("dimC", CENTRAL_ID_TERM, "dimCid"),
  ("dimCid", SDO_IDENT_TERM, "phv3"),
  ("dimC", NAME_TERM, "dimCnm"),
  ("dimCnm", SDO_VALUE_TERM, "varC")
]

/-- A graph with two distinct Dimension nodes carrying identical attribute
values under one Dataset: both reach the same final output tuple. -/
def gDup : Graph := [
  ("ds1", RDF_TYPE_TERM, DATS_DATASET_TERM),
  ("ds1", CENTRAL_ID_TERM, "ds1id"),
  ("ds1id", SDO_IDENT_TERM, "phs000001.v1"),
  ("ds1", HAS_PART_TERM, "dimP"),
  ("dimP", RDF_TYPE_TERM, DATS_DIMENSION_TERM),
  ("dimP", DESCR_TERM, "shared descr"),
  ("dimP", CENTRAL_ID_TERM, "dimPid"),
  ("dimPid", SDO_IDENT_TERM, "phv9"),
  ("dimP", NAME_TERM, "dimPnm"),
  ("dimPnm", SDO_VALUE_TERM, "varP"),
  ("ds1", HAS_PART_TERM, "dimQ"),
  ("dimQ", RDF_TYPE_TERM, DATS_DIMENSION_TERM),
  ("dimQ", DESCR_TERM, "shared descr"),
  ("dimQ", CENTRAL_ID_TERM, "dimQid"),
  ("dimQid", SDO_IDENT_TERM, "phv9"),
  ("dimQ", NAME_TERM, "dimQnm"),
  ("dimQnm", SDO_VALUE_TERM, "varP")
]

/-- A graph whose node `nodeX` is never declared of the Dataset type with
`rdf:type`; it merely has some other predicate whose object happens to be
the Dataset type term. -/
def gWild : Graph := [
  ("nodeX", DESCR_TERM, DATS_DATASET_TERM),
  ("nodeX", CENTRAL_ID_TERM, "xid"),
  ("xid", SDO_IDENT_TERM, "phs000999.v1"),
  ("nodeX", HAS_PART_TERM, "dimW"),
  ("dimW", RDF_TYPE_TERM, DATS_DIMENSION_TERM),
  ("dimW", DESCR_TERM, "w descr"),
  ("dimW", CENTRAL_ID_TERM, "dimWid"),
  ("dimWid", SDO_IDENT_TERM, "phv7"),
  ("dimW", NAME_TERM, "dimWnm"),
  ("dimWnm", SDO_VALUE_TERM, "varW")
]

/-! ### DATS objects for the GTEx converter (gtex_v7_to_dats.py)

`DatsObj` itself lives in `ccmm.dats.datsobj`, outside the four source
files.  Modelled from the spec: a node is a typed record of properties, and
`getIdRef()` yields a Reference carrying only the node identity (here: the
subject name, resp. the group name).  State mutated through shared objects
(`dats_subject_d` and the subject Materials it holds) is passed explicitly. -/

/-- A "Dimension" entry of a subject Material `characteristics` list:
its `name` and the identities referenced from its `values` list. -/
structure CharDim where
  dname : String
  values : List String
deriving DecidableEq

/-- A subject Material, with the properties the sources touch. -/
structure SubjectRec where
  name : String
  characteristics : List CharDim
  description : String
deriving DecidableEq

/-- `dats_subject_d` / `subjects_d`: DATS subjects indexed by name. -/
abbrev SubjMap := List (String × SubjectRec)

/-- A ConsentInfo node as built by `make_consent_group` (lines 140-152). -/
structure ConsentInfo where
  name : String
  abbreviation : Option String
  description : String
  relatedIdentifiers : List String
deriving DecidableEq

/-- A member of a StudyGroup `members` list: either a full subject Material
emitted inline, or an id-based Reference to one (`getIdRef()`). -/
inductive MemberEntry where
  | full (name : String)
  | idref (name : String)
deriving DecidableEq

/-- Is this member entry a Reference rather than a full Material? -/
def MemberEntry.isIdref : MemberEntry → Bool
  | .idref _ => true
  | .full _ => false

/-- A StudyGroup as built by the converter (lines 157-162 and 345-350). -/
structure StudyGroup where
  name : String
  members : List MemberEntry
  size : Nat
  consentInformation : List ConsentInfo
deriving DecidableEq

/-- The first recognized consent group name (line 135). -/
def GRU_NAME : String := "General Research Use (GRU)"

/-- The second recognized consent group name (line 148). -/
def NO_PARTICIPATION_NAME : String :=
  "Subjects did not participate in the study, did not complete a consent document and are included only for the pedigree structure and/or genotype controls, such as HapMap subjects"

/-- Lines 134-155 of gtex_v7_to_dats.py: the ConsentInfo for a consent
group name, or the fatal `logging.fatal` + `sys.exit(1)` branch. -/
def mkConsentInfo (groupName : String) : Except String ConsentInfo :=
  if groupName = GRU_NAME then
    .ok ⟨groupName, some "GRU", groupName,
      ["http://purl.obolibrary.org/obo/DUO_0000005"]⟩
  else if groupName = NO_PARTICIPATION_NAME then
    .ok ⟨groupName, none, groupName, []⟩
  else
    .error ("unrecognized consent group " ++ groupName)

/-- Lines 108-124 of gtex_v7_to_dats.py: walk `subject_l` (as SUBJIDs).
A SUBJID absent from `dats_subject_d` gets a fresh placeholder Material
(appended in full to the member list and registered in the dict); a SUBJID
already present contributes `ds.getIdRef()`.  Returns
(`dats_subjects_idrefs_l`, updated `dats_subject_d`); `dats_subjects_l`
holds one subject object per element of `subject_l`, in order, so later
loops over it revisit exactly the names of `subject_l`. -/
def processSubjects : List String → SubjMap → List MemberEntry × SubjMap
  | [], d => ([], d)
  | s :: rest, d =>
    match dictLookup d s with
    | none =>
      let subj : SubjectRec := ⟨s, [], "GTEx subject " ++ s⟩
      let p := processSubjects rest (dictInsert d s subj)
      (.full s :: p.1, p.2)
    | some _ =>
      let p := processSubjects rest d
      (.idref s :: p.1, p.2)

/-- The back-link Dimension appended to a subject `characteristics` list
(lines 170 and 358): name "member of study group", values = the group
Reference. -/
def mkCharDim (groupRef : String) : CharDim :=
  ⟨"member of study group", [groupRef]⟩

/-- `cl = s.get("characteristics"); cl.append(...)` for the subject object
registered under name `n`. -/
def updateChar (d : SubjMap) (n : String) (cd : CharDim) : SubjMap :=
  d.map (fun p =>
    if p.1 == n then (p.1, { p.2 with characteristics := p.2.characteristics ++ [cd] })
    else p)

/-- Lines 164-170 and 352-358: append a back-link Dimension to each listed
subject, unless `--no_circular_links` was given, in which case nothing is
touched. -/
def linkBackAll (noCircularLinks : Bool) (subjectNames : List String)
    (d : SubjMap) (groupRef : String) : SubjMap :=
  if noCircularLinks then d
  else subjectNames.foldl (fun dd s => updateChar dd s (mkCharDim groupRef)) d

/-- `make_consent_group(args, group_name, group_index, subject_l,
dats_subject_d)` of gtex_v7_to_dats.py (lines 101-171); `group_index` is
unused by the source.  Returns the StudyGroup and the updated subject
dict. -/
def make_consent_group (noCircularLinks : Bool) (groupName : String)
    (subject_l : List String) (d : SubjMap) :
    Except String (StudyGroup × SubjMap) :=
  let p := processSubjects subject_l d
  match mkConsentInfo groupName with
  | .error e => .error e
  | .ok ci =>
    let group : StudyGroup := ⟨groupName, p.1, p.1.length, [ci]⟩
    .ok (group, linkBackAll noCircularLinks subject_l p.2 group.name)

/-- Lines 345-350 of gtex_v7_to_dats.py: the "all subjects" StudyGroup;
subjects appear in full here, `size` is the length of the same list.  (The
source sets no `consentInformation` property.) -/
def mkAllSubjectsGroup (subjectNames : List String) : StudyGroup :=
  ⟨"all subjects", subjectNames.map MemberEntry.full, subjectNames.length, []⟩

/-- Lines 180-186 of gtex_v7_to_dats.py (`add_restricted_data`): index DATS
subjects by name, aborting on a duplicate name. -/
def indexSubjectsByName : List SubjectRec → SubjMap → Except String SubjMap
  | [], d => .ok d
  | s :: rest, d =>
    if dictContains d s.name then
      .error ("duplicate GTEx subject name " ++ s.name)
    else indexSubjectsByName rest (dictInsert d s.name s)

/-- The subject-indexing step started from the empty dict. -/
def index_subjects_by_name (subjects_l : List SubjectRec) : Except String SubjMap :=
  indexSubjectsByName subjects_l []

/-! ### `add_study_vars` (topmed_to_dats.py) -/

/-- A dbGaP variable record from a var_report. -/
structure DbgapVar where
  var_name : String
  id : String
  description : String
deriving DecidableEq

/-- A DATS Dimension as built by `add_study_vars` (lines 33-42):
identifier (value and source), name (the Annotation value), description. -/
structure DimensionRec where
  identifier : String × String
  name : String
  description : String
deriving DecidableEq

/-- Lines 33-42: the Dimension built for one dbGaP variable. -/
def mkDimension (v : DbgapVar) : DimensionRec :=
  ⟨(v.id, "dbGaP"), v.var_name, v.description⟩

/-- The fixed iteration order of variable groups (line 24). -/
def VAR_TYPES : List String := ["Subject", "Subject_Phenotypes", "Sample", "Sample_Attributes"]

/-- The study metadata, reduced to what `add_study_vars` reads: for each
variable-group name present, the list
`study_md[var_type]["var_report"]["data"]["vars"]`. -/
abbrev StudyMd := List (String × List DbgapVar)

/-- Lines 21-28: `all_vars`, concatenated over the present var types. -/
def allVarsOf (md : StudyMd) : List DbgapVar :=
  VAR_TYPES.foldl
    (fun acc vt =>
      match dictLookup md vt with
      | some vs => acc ++ vs
      | none => acc)
    []

/-- Lines 31-49, the loop body: append the new Dimension to the study
dimensions, then abort if the dbGaP id was already tracked, else track it. -/
def addVarsLoop : List DimensionRec → List (Term × DimensionRec) → List DbgapVar →
    Except String (List DimensionRec × List (Term × DimensionRec))
  | dims, dbgap, [] => .ok (dims, dbgap)
  | dims, dbgap, v :: rest =>
    let dim := mkDimension v
    let dims2 := dims ++ [dim]
    if dictContains dbgap v.id then
      .error ("duplicate definition found for dbGaP variable " ++ v.var_name ++
        " with accession=" ++ v.id)
    else addVarsLoop dims2 (dictInsert dbgap v.id dim) rest

/-- `add_study_vars(study, study_md)` of topmed_to_dats.py: returns the
study `dimensions` list (grown from `dims0`) and `dbgap_vars`. -/
def add_study_vars (md : StudyMd) (dims0 : List DimensionRec) :
    Except String (List DimensionRec × List (Term × DimensionRec)) :=
  addVarsLoop dims0 [] (allVarsOf md)

/-! ### Single-study selection and sample limiting (gtex_v7_to_dats.py main) -/

/-- Lines 313-318 of gtex_v7_to_dats.py: `study_ids[0]` is evaluated
*before* the count check (an empty list raises IndexError there); then the
run aborts unless exactly one study was read. -/
def selectSingleStudy (study_ids : List String) : Except String String :=
  let n := study_ids.length
  match study_ids with
  | [] => .error "IndexError: list index out of range"
  | s0 :: _ =>
    if n != 1 then .error "fatal: wrong number of dbGaP studies"
    else .ok s0

/-- A sample Material, reduced to the property the limiting step reads. -/
structure SampleRec where
  name : String
deriving DecidableEq

/-- The key relation of `sorted(..., key=lambda s: s.get("name"))`. -/
abbrev sampLe (a b : SampleRec) : Prop := strLe a.name b.name = true

/-- Line 375: the name-sorted sample list (Python `sorted` is stable). -/
def sortSamplesByName (l : List SampleRec) : List SampleRec :=
  List.insertionSort sampLe l

/-- Python `l[0:stop]` for an `int` stop: the first `stop` elements when
`stop ≥ 0`, all but the last `-stop` elements when `stop < 0`. -/
def pySliceUpTo (stop : Int) (l : List SampleRec) : List SampleRec :=
  if stop < 0 then l.take (l.length - stop.natAbs) else l.take stop.toNat

/-- Lines 375-379 of gtex_v7_to_dats.py: the list assigned to the dbGaP
study Dataset `isAbout` — the name-sorted samples, truncated by
`dats_samples_l[0:int(args.max_output_samples)]` when the option was
supplied. -/
def limitSamples (maxOutputSamples : Option Int) (samples : List SampleRec) :
    List SampleRec :=
  let dats_samples_l := sortSamplesByName samples
  match maxOutputSamples with
  | none => dats_samples_l
  | some n => pySliceUpTo n dats_samples_l

/-! ### Concrete values used by witnesses -/

/-- An initial subject dict holding one subject with a non-empty
characteristics list. -/
def dEx0 : SubjMap := [("GTEX-1", ⟨"GTEX-1", [⟨"c", ["v"]⟩], "subj"⟩)]

/-- A consent-group subject list: one known subject, one new subject, and a
repeat of the known one. -/
def slEx : List String := ["GTEX-1", "GTEX-9", "GTEX-1"]

/-- The ConsentInfo of the GRU group (lines 140-147). -/
def ciGRU : ConsentInfo :=
  ⟨GRU_NAME, some "GRU", GRU_NAME, ["http://purl.obolibrary.org/obo/DUO_0000005"]⟩

/-- The StudyGroup produced by `make_consent_group true GRU_NAME slEx dEx0`. -/
def grpEx : StudyGroup :=
  ⟨GRU_NAME, [.idref "GTEX-1", .full "GTEX-9", .idref "GTEX-1"], 3, [ciGRU]⟩

/-- The subject dict produced alongside `grpEx`. -/
def dEx1 : SubjMap :=
  [("GTEX-1", ⟨"GTEX-1", [⟨"c", ["v"]⟩], "subj"⟩),
   ("GTEX-9", ⟨"GTEX-9", [], "GTEx subject GTEX-9"⟩)]

/-- The rows returned by `list_dataset_variables gEx none`. -/
def rowsEx : List Row :=
  [⟨"phs000001.v1", "phv1", "varA", "descr A"⟩,
   ⟨"phs000001.v1", "phv2", "varB", "descr B"⟩]

/-! ### String-order lemmas -/

theorem charsLe_total : ∀ as bs : List Char, charsLe as bs = true ∨ charsLe bs as = true
  | [], _ => Or.inl rfl
  | _ :: _, [] => Or.inr rfl
  | a :: as, b :: bs => by
    unfold charsLe
    rcases Nat.lt_trichotomy a.toNat b.toNat with h | h | h
    · left; rw [if_pos h]
    · rw [if_neg (by omega), if_neg (by omega), if_neg (by omega), if_neg (by omega)]
      exact charsLe_total as bs
    · right; rw [if_pos h]

theorem charsLe_trans : ∀ as bs cs : List Char,
    charsLe as bs = true → charsLe bs cs = true → charsLe as cs = true
  | [], _, _, _, _ => rfl
  | _ :: _, [], _, h1, _ => by simp [charsLe] at h1
  | _ :: _, _ :: _, [], _, h2 => by simp [charsLe] at h2
  | a :: as, b :: bs, c :: cs, h1, h2 => by
    unfold charsLe at h1 h2 ⊢
    rcases Nat.lt_trichotomy a.toNat b.toNat with hab | hab | hab
    · rcases Nat.lt_trichotomy b.toNat c.toNat with hbc | hbc | hbc
      · rw [if_pos (Nat.lt_trans hab hbc)]
      · rw [if_pos (by omega)]
      · rw [if_neg (by omega), if_pos hbc] at h2; simp at h2
    · rcases Nat.lt_trichotomy b.toNat c.toNat with hbc | hbc | hbc
      · rw [if_pos (by omega)]
      · rw [if_neg (by omega), if_neg (by omega)]
        rw [if_neg (by omega), if_neg (by omega)] at h1
        rw [if_neg (by omega), if_neg (by omega)] at h2
        exact charsLe_trans as bs cs h1 h2
      · rw [if_neg (by omega), if_pos hbc] at h2; simp at h2
    · rw [if_neg (by omega), if_pos hab] at h1; simp at h1

theorem strLe_total (a b : String) : strLe a b = true ∨ strLe b a = true :=
  charsLe_total a.data b.data

theorem strLe_trans {a b c : String} (h1 : strLe a b = true) (h2 : strLe b c = true) :
    strLe a c = true :=
  charsLe_trans a.data b.data c.data h1 h2

/-! ### Dictionary lemmas -/

theorem dictLookup_insert_self {α : Type} :
    ∀ (d : List (Term × α)) (k : Term) (v : α),
      dictLookup (dictInsert d k v) k = some v
  | [], k, v => by simp [dictLookup, dictInsert]
  | p :: rest, k, v => by
    unfold dictInsert
    by_cases h : p.1 == k
    · rw [if_pos h]; simp [dictLookup]
    · rw [if_neg h]; unfold dictLookup; rw [if_neg h]
      exact dictLookup_insert_self rest k v

theorem dictLookup_insert_ne {α : Type} :
    ∀ (d : List (Term × α)) (k k2 : Term) (v : α), k2 ≠ k →
      dictLookup (dictInsert d k v) k2 = dictLookup d k2
  | [], k, k2, v, h => by
    simp [dictLookup, dictInsert]
    intro hc; exact absurd hc.symm h
  | p :: rest, k, k2, v, h => by
    unfold dictInsert
    by_cases hp : p.1 == k
    · rw [if_pos hp]
      unfold dictLookup
      have hk2 : (k == k2) = false := by
        simp only [beq_eq_false_iff_ne]; exact fun hc => h hc.symm
      rw [if_neg (by simp [hk2])]
      have hp1 : p.1 = k := by simpa using hp
      rw [hp1]
      rw [if_neg (by simp; exact fun hc => h hc.symm)]
    · rw [if_neg hp]
      unfold dictLookup
      by_cases hq : p.1 == k2
      · rw [if_pos hq, if_pos hq]
      · rw [if_neg hq, if_neg hq]
        exact dictLookup_insert_ne rest k k2 v h

theorem dictContains_insert {α : Type} (d : List (Term × α)) (k k2 : Term) (v : α) :
    dictContains (dictInsert d k v) k2 = (k2 == k || dictContains d k2) := by
  by_cases h : k2 = k
  · subst h
    simp [dictContains, dictLookup_insert_self]
  · rw [dictContains, dictLookup_insert_ne d k k2 v h]
    have : (k2 == k) = false := by simpa using h
    rw [this]
    simp [dictContains]

theorem dictGet_ok_iff {α : Type} (d : List (Term × α)) (k : Term) (v : α) :
    dictGet d k = .ok v ↔ dictLookup d k = some v := by
  unfold dictGet
  cases dictLookup d k <;> simp

theorem dictGet_of_contains {α : Type} (d : List (Term × α)) (k : Term)
    (h : dictContains d k = true) : ∃ v, dictGet d k = .ok v := by
  unfold dictContains at h
  unfold dictGet
  cases hl : dictLookup d k with
  | none => rw [hl] at h; simp at h
  | some v => exact ⟨v, rfl⟩

/-! ### Claim C9 -/

/-- Claim C9: in gtex_v7_to_dats.py `main`, `study_ids[0]` is evaluated
before the study-count check; under the precondition that at least one
study was read the index access is in bounds (no IndexError), and execution
proceeds past the check (the function yields a study id) if and only if
exactly one study was read — otherwise the run aborts via the fatal
branch. -/
theorem c9_single_study_check (l : List String) (h : 0 < l.length) :
    selectSingleStudy l ≠ .error "IndexError: list index out of range" ∧
    ((∃ s, selectSingleStudy l = .ok s) ↔ l.length = 1) := by
  cases l with
  | nil => simp at h
  | cons s0 rest =>
    cases rest with
    | nil =>
      have hv : selectSingleStudy [s0] = .ok s0 := rfl
      rw [hv]
      constructor
      · intro hc; cases hc
      · constructor
        · intro _; rfl
        · intro _; exact ⟨s0, rfl⟩
    | cons s1 rest2 =>
      have hlen : ((s0 :: s1 :: rest2).length != 1) = true := by
        simp only [List.length_cons, bne_iff_ne, ne_eq]
        omega
      have hv : selectSingleStudy (s0 :: s1 :: rest2) =
          .error "fatal: wrong number of dbGaP studies" := by
        show (if ((s0 :: s1 :: rest2).length != 1) = true
          then Except.error "fatal: wrong number of dbGaP studies"
          else Except.ok s0) = _
        rw [hlen]
        simp
      rw [hv]
      constructor
      · intro hc
        simp only [Except.error.injEq] at hc
        exact absurd hc (by decide)
      · constructor
        · rintro ⟨s, hs⟩; cases hs
        · intro hc
          simp only [List.length_cons] at hc
          omega

/-- Witness for C9 at a concrete singleton study list. -/
theorem c9_witness :
    selectSingleStudy ["phs000424.v7"] ≠ .error "IndexError: list index out of range" ∧
    ((∃ s, selectSingleStudy ["phs000424.v7"] = .ok s) ↔
      (["phs000424.v7"] : List String).length = 1) :=
  c9_single_study_check ["phs000424.v7"] (by decide)

/-! ### Claim C10 -/

/-- Claim C10 counterexample: with `--max_output_samples -1` (a negative
`int` accepted by the option) and two samples, the code keeps the first
sample of the name-sorted list, while the claimed "first min(N, total)
elements" formula yields the empty list. -/
theorem c10_counterexample :
    ¬ (limitSamples (some (-1)) [⟨"B"⟩, ⟨"A"⟩] =
       (limitSamples none [⟨"B"⟩, ⟨"A"⟩]).take (min (-1 : Int) (2 : Int)).toNat) := by
  decide

/-- Claim C10 (amended): for a non-negative `--max_output_samples N`, the
`isAbout` list is the first `min(N, total)` elements (length equation) of
the sample list sorted ascending by name; with the option absent it is the
entire name-sorted list, which is sorted non-decreasingly by name.  (For a
negative `N`, Python slice semantics keep all but the last `-N` sorted
samples instead.) -/
theorem c10_max_output_samples (n : Int) (samples : List SampleRec) (h : 0 ≤ n) :
    limitSamples (some n) samples = (limitSamples none samples).take n.toNat ∧
    (limitSamples (some n) samples).length = min n.toNat samples.length ∧
    ((limitSamples none samples).map SampleRec.name).Pairwise
      (fun a b => strLe a b = true) := by
  have h0 : limitSamples none samples = sortSamplesByName samples := rfl
  have h1 : limitSamples (some n) samples = (sortSamplesByName samples).take n.toNat := by
    show pySliceUpTo n (sortSamplesByName samples) = _
    unfold pySliceUpTo
    rw [if_neg (by omega)]
  refine ⟨by rw [h1, h0], ?_, ?_⟩
  · rw [h1, List.length_take]
    have hlen : (sortSamplesByName samples).length = samples.length :=
      (List.perm_insertionSort sampLe samples).length_eq
    rw [hlen]
  · rw [h0]
    haveI : IsTotal SampleRec sampLe := ⟨fun a b => strLe_total a.name b.name⟩
    haveI : IsTrans SampleRec sampLe := ⟨fun _ _ _ hab hbc => strLe_trans hab hbc⟩
    exact List.pairwise_map.mpr (List.sorted_insertionSort sampLe samples)

/-- Witness for C10 (amended) at `N = 1` over two unsorted samples. -/
theorem c10_witness :
    limitSamples (some 1) [⟨"B"⟩, ⟨"A"⟩] =
      (limitSamples none [⟨"B"⟩, ⟨"A"⟩]).take (1 : Int).toNat ∧
    (limitSamples (some 1) [⟨"B"⟩, ⟨"A"⟩]).length =
      min (1 : Int).toNat ([⟨"B"⟩, ⟨"A"⟩] : List SampleRec).length ∧
    ((limitSamples none [⟨"B"⟩, ⟨"A"⟩]).map SampleRec.name).Pairwise
      (fun a b => strLe a b = true) :=
  c10_max_output_samples 1 [⟨"B"⟩, ⟨"A"⟩] (by decide)

/-! ### Claim C2 -/

theorem addVarsLoop_error :
    ∀ (vs : List DbgapVar) (dims : List DimensionRec) (dbgap : List (Term × DimensionRec)),
      (¬ (vs.map DbgapVar.id).Nodup ∨ ∃ v ∈ vs, dictContains dbgap v.id = true) →
      ∃ e, addVarsLoop dims dbgap vs = .error e
  | [], _, _, h => by
    rcases h with h | ⟨v, hv, _⟩
    · simp at h
    · exact absurd hv (List.not_mem_nil v)
  | v :: rest, dims, dbgap, h => by
    unfold addVarsLoop
    by_cases hc : dictContains dbgap v.id = true
    · rw [if_pos hc]; exact ⟨_, rfl⟩
    · rw [if_neg hc]
      apply addVarsLoop_error rest
      rcases h with h | ⟨u, hu, hcu⟩
      · rw [List.map_cons, List.nodup_cons] at h
        by_cases hnd : (rest.map DbgapVar.id).Nodup
        · have hmem : v.id ∈ rest.map DbgapVar.id := by
            by_contra hnm
            exact h ⟨hnm, hnd⟩
          rcases List.mem_map.mp hmem with ⟨u, hu, hid⟩
          refine Or.inr ⟨u, hu, ?_⟩
          rw [dictContains_insert, hid]
          simp
        · exact Or.inl hnd
      · rcases List.mem_cons.mp hu with hv | hv
        · subst hv; exact absurd hcu hc
        · refine Or.inr ⟨u, hv, ?_⟩
          rw [dictContains_insert, hcu]
          simp

theorem indexSubjectsByName_error :
    ∀ (ss : List SubjectRec) (d : SubjMap),
      (¬ (ss.map SubjectRec.name).Nodup ∨ ∃ s ∈ ss, dictContains d s.name = true) →
      ∃ e, indexSubjectsByName ss d = .error e
  | [], _, h => by
    rcases h with h | ⟨s, hs, _⟩
    · simp at h
    · exact absurd hs (List.not_mem_nil s)
  | s :: rest, d, h => by
    unfold indexSubjectsByName
    by_cases hc : dictContains d s.name = true
    · rw [if_pos hc]; exact ⟨_, rfl⟩
    · rw [if_neg hc]
      apply indexSubjectsByName_error rest
      rcases h with h | ⟨u, hu, hcu⟩
      · rw [List.map_cons, List.nodup_cons] at h
        by_cases hnd : (rest.map SubjectRec.name).Nodup
        · have hmem : s.name ∈ rest.map SubjectRec.name := by
            by_contra hnm
            exact h ⟨hnm, hnd⟩
          rcases List.mem_map.mp hmem with ⟨u, hu, hid⟩
          refine Or.inr ⟨u, hu, ?_⟩
          rw [dictContains_insert, hid]
          simp
        · exact Or.inl hnd
      · rcases List.mem_cons.mp hu with hv | hv
        · subst hv; exact absurd hcu hc
        · refine Or.inr ⟨u, hv, ?_⟩
          rw [dictContains_insert, hcu]
          simp

/-- Claim C2: whenever two records claim the same explicit identifier, the
run aborts fatally rather than silently merging — `add_study_vars` aborts
when two dbGaP variables share the same id (topmed_to_dats.py lines 44-49),
and the subject-indexing step of `add_restricted_data` aborts when two DATS
subjects share the same name (gtex_v7_to_dats.py lines 180-186). -/
theorem c2_identifier_collision_aborts (md : StudyMd) (dims0 : List DimensionRec)
    (subjects_l : List SubjectRec) :
    (¬ ((allVarsOf md).map DbgapVar.id).Nodup →
      ∃ e, add_study_vars md dims0 = .error e) ∧
    (¬ (subjects_l.map SubjectRec.name).Nodup →
      ∃ e, index_subjects_by_name subjects_l = .error e) :=
  ⟨fun h => addVarsLoop_error (allVarsOf md) dims0 [] (Or.inl h),
   fun h => indexSubjectsByName_error subjects_l [] (Or.inl h)⟩

/-- Witness for C2: a var_report with two variables sharing accession
`phv1`, and a subject list with two subjects named `GTEX-1`. -/
theorem c2_witness :
    (∃ e, add_study_vars [("Subject", [⟨"AGE", "phv1", "age"⟩, ⟨"SEX", "phv1", "sex"⟩])] []
      = .error e) ∧
    (∃ e, index_subjects_by_name [⟨"GTEX-1", [], "a"⟩, ⟨"GTEX-1", [], "b"⟩] = .error e) :=
  ⟨(c2_identifier_collision_aborts
      [("Subject", [⟨"AGE", "phv1", "age"⟩, ⟨"SEX", "phv1", "sex"⟩])] [] []).1 (by decide),
   (c2_identifier_collision_aborts [] []
      [⟨"GTEX-1", [], "a"⟩, ⟨"GTEX-1", [], "b"⟩]).2 (by decide)⟩

/-! ### Claims C5 and C6 (behaviour of the code at the failing inputs) -/

/-- Claim C5, code evaluation at the failing input: the comments of
rdflib_list_dataset_variables.py document `SELECT DISTINCT`, but the
implementation never deduplicates output tuples — on `gDup`, where two
distinct Dimension nodes reach the same final tuple, the returned list
contains the same (study, var_dbgap_id, var_name, var_descr) tuple twice. -/
theorem c5_duplicate_rows_eval :
    list_dataset_variables gDup none =
      .ok [⟨"phs000001.v1", "phv9", "varP", "shared descr"⟩,
           ⟨"phs000001.v1", "phv9", "varP", "shared descr"⟩] := by
  decide

/-- Claim C6, code evaluation at the failing input: the first join step
uses the triple pattern `(None, None, DATS_DATASET_TERM)` with a wildcard
predicate, so `nodeX` — which has no `rdf:type` declaration at all — is
still selected as a Dataset and produces a row. -/
theorem c6_wildcard_predicate_eval :
    list_dataset_variables gWild none =
      .ok [⟨"phs000999.v1", "phv7", "varW", "w descr"⟩] ∧
    (∀ t ∈ gWild, t.1 = "nodeX" → t.2.1 ≠ RDF_TYPE_TERM) := by
  decide

/-! ### Claim C3 -/

/-- Claim C3 counterexample: on `gBadDim` the only Dimension has an
identifier but no description triple, and `list_dataset_variables` raises a
`KeyError` instead of completing normally. -/
theorem c3_counterexample :
    list_dataset_variables gBadDim none = .error "KeyError" ∧
    (∀ t ∈ gBadDim, t.1 = "dimC" → t.2.1 ≠ DESCR_TERM) := by
  decide

/-! ### Claims C1, C7, C8 on `make_consent_group` -/

theorem processSubjects_members :
    ∀ (sl : List String) (d : SubjMap),
      (processSubjects sl d).1.length = sl.length ∧
      ∀ (k : Nat) (x : String), sl[k]? = some x →
        (processSubjects sl d).1[k]? =
          some (if dictContains d x || (sl.take k).contains x
                then MemberEntry.idref x else MemberEntry.full x)
  | [], d => ⟨rfl, by intro k x hx; simp at hx⟩
  | s :: rest, d => by
    unfold processSubjects
    cases hl : dictLookup d s with
    | none =>
      have IH := processSubjects_members rest (dictInsert d s ⟨s, [], "GTEx subject " ++ s⟩)
      simp only []
      constructor
      · simp only [List.length_cons, IH.1]
      · intro k x hx
        cases k with
        | zero =>
          simp only [List.getElem?_cons_zero, Option.some.injEq] at hx
          subst hx
          have hcd : dictContains d s = false := by simp [dictContains, hl]
          simp [hcd]
        | succ k =>
          simp only [List.getElem?_cons_succ] at hx ⊢
          rw [IH.2 k x hx]
          rw [dictContains_insert]
          rw [List.take_succ_cons, List.contains_cons]
          have hb : ((x == s || dictContains d x) || (rest.take k).contains x)
              = (dictContains d x || (x == s || (rest.take k).contains x)) := by
            cases x == s <;> cases dictContains d x <;> simp
          rw [hb]
    | some ds =>
      have IH := processSubjects_members rest d
      simp only []
      constructor
      · simp only [List.length_cons, IH.1]
      · intro k x hx
        cases k with
        | zero =>
          simp only [List.getElem?_cons_zero, Option.some.injEq] at hx
          subst hx
          have hcd : dictContains d s = true := by simp [dictContains, hl]
          simp [hcd]
        | succ k =>
          simp only [List.getElem?_cons_succ] at hx ⊢
          rw [IH.2 k x hx]
          rw [List.take_succ_cons, List.contains_cons]
          by_cases hxs : x = s
          · subst hxs
            have hcd : dictContains d x = true := by simp [dictContains, hl]
            rw [hcd]
            simp
          · have hb : (x == s) = false := by simpa using hxs
            rw [hb, Bool.false_or]

/-- The StudyGroup and final dict produced by `make_consent_group`, in
terms of `processSubjects`, when the consent group name is recognized. -/
theorem make_consent_group_ok (flag : Bool) (gn : String) (sl : List String)
    (d : SubjMap) (grp : StudyGroup) (d2 : SubjMap)
    (h : make_consent_group flag gn sl d = .ok (grp, d2)) :
    ∃ ci, grp = ⟨gn, (processSubjects sl d).1, (processSubjects sl d).1.length, [ci]⟩ ∧
      d2 = linkBackAll flag sl (processSubjects sl d).2 gn := by
  unfold make_consent_group at h
  cases hci : mkConsentInfo gn with
  | error e => rw [hci] at h; cases h
  | ok ci =>
    rw [hci] at h
    simp only [Except.ok.injEq, Prod.mk.injEq] at h
    exact ⟨ci, h.1.symm, h.2.symm⟩

/-- Claim C1: in `make_consent_group`, the `k`-th entry of the StudyGroup
`members` list is a Reference (`getIdRef()`) exactly when the `k`-th
subject of `subject_l` was already present in `dats_subject_d` (either
initially, or because an earlier occurrence in `subject_l` registered it);
only a subject absent from the dict is added as a full Material object. -/
theorem c1_members_idref_iff_seen (flag : Bool) (gn : String) (sl : List String)
    (d : SubjMap) (grp : StudyGroup) (d2 : SubjMap)
    (h : make_consent_group flag gn sl d = .ok (grp, d2)) :
    grp.members.length = sl.length ∧
    ∀ (k : Nat) (x : String), sl[k]? = some x →
      grp.members[k]? =
        some (if dictContains d x || (sl.take k).contains x
              then MemberEntry.idref x else MemberEntry.full x) := by
  rcases make_consent_group_ok flag gn sl d grp d2 h with ⟨ci, hg, _⟩
  rw [hg]
  exact processSubjects_members sl d

/-- Witness for C1: applying the theorem at `slEx`/`dEx0`; position 0 is a
known subject (Reference), position 1 a new subject (full Material),
position 2 a repeat of position 0 (Reference). -/
theorem c1_witness :
    grpEx.members.length = slEx.length ∧
    ∀ (k : Nat) (x : String), slEx[k]? = some x →
      grpEx.members[k]? =
        some (if dictContains dEx0 x || (slEx.take k).contains x
              then MemberEntry.idref x else MemberEntry.full x) :=
  c1_members_idref_iff_seen true GRU_NAME slEx dEx0 grpEx dEx1 (by decide)

/-- Claim C8: every StudyGroup constructed by the GTEx converter satisfies
`size` = length of its `members` list at construction time, both for each
consent group (`make_consent_group`) and for the "all subjects" group. -/
theorem c8_size_matches_members (flag : Bool) (gn : String) (sl : List String)
    (d : SubjMap) (grp : StudyGroup) (d2 : SubjMap)
    (h : make_consent_group flag gn sl d = .ok (grp, d2)) :
    grp.size = grp.members.length ∧
    ∀ l : List String,
      (mkAllSubjectsGroup l).size = (mkAllSubjectsGroup l).members.length := by
  constructor
  · rcases make_consent_group_ok flag gn sl d grp d2 h with ⟨ci, hg, _⟩
    rw [hg]
  · intro l
    simp [mkAllSubjectsGroup]

/-- Witness for C8 at the concrete consent group `grpEx`. -/
theorem c8_witness :
    grpEx.size = grpEx.members.length ∧
    (mkAllSubjectsGroup ["GTEX-1", "GTEX-2"]).size =
      (mkAllSubjectsGroup ["GTEX-1", "GTEX-2"]).members.length :=
  ⟨(c8_size_matches_members true GRU_NAME slEx dEx0 grpEx dEx1 (by decide)).1,
   (c8_size_matches_members true GRU_NAME slEx dEx0 grpEx dEx1 (by decide)).2
     ["GTEX-1", "GTEX-2"]⟩

theorem processSubjects_chars :
    ∀ (sl : List String) (d : SubjMap) (n : String) (s : SubjectRec),
      dictLookup (processSubjects sl d).2 n = some s →
      dictLookup d n = some s ∨ s.characteristics = []
  | [], _, _, _ => fun h => Or.inl h
  | x :: rest, d, n, s => by
    unfold processSubjects
    cases hl : dictLookup d x with
    | none =>
      simp only []
      intro h
      rcases processSubjects_chars rest
          (dictInsert d x ⟨x, [], "GTEx subject " ++ x⟩) n s h with h2 | h2
      · by_cases hnx : n = x
        · subst hnx
          rw [dictLookup_insert_self] at h2
          simp only [Option.some.injEq] at h2
          right
          rw [← h2]
        · rw [dictLookup_insert_ne d x n _ hnx] at h2
          exact Or.inl h2
      · exact Or.inr h2
    | some _ =>
      simp only []
      intro h
      exact processSubjects_chars rest d n s h

/-- Claim C7: when `--no_circular_links` is set, back-linking is a no-op
everywhere — the "all subjects" back-link loop leaves the subject dict
untouched, and `make_consent_group` appends no "member of study group"
Dimension to any subject: a subject present in the resulting dict either
kept exactly its old record, or is a newly created placeholder with empty
characteristics. -/
theorem c7_no_circular_links_noop (gn : String) (sl : List String) (d : SubjMap)
    (gref : String) (grp : StudyGroup) (d2 : SubjMap)
    (h : make_consent_group true gn sl d = .ok (grp, d2)) :
    linkBackAll true sl d gref = d ∧
    ∀ (n : String) (s : SubjectRec), dictLookup d2 n = some s →
      dictLookup d n = some s ∨ s.characteristics = [] := by
  constructor
  · rfl
  · rcases make_consent_group_ok true gn sl d grp d2 h with ⟨ci, _, hd⟩
    have hd2 : d2 = (processSubjects sl d).2 := hd
    intro n s hs
    rw [hd2] at hs
    exact processSubjects_chars sl d n s hs

/-- Witness for C7: the pre-existing subject GTEX-1 keeps its record
(characteristics untouched) and the new subject GTEX-9 has empty
characteristics, under the `--no_circular_links` flag. -/
theorem c7_witness :
    linkBackAll true slEx dEx0 "all subjects" = dEx0 ∧
    (dictLookup dEx0 "GTEX-1" = some ⟨"GTEX-1", [⟨"c", ["v"]⟩], "subj"⟩ ∨
      (⟨"GTEX-1", [⟨"c", ["v"]⟩], "subj"⟩ : SubjectRec).characteristics = []) ∧
    (dictLookup dEx0 "GTEX-9" = some ⟨"GTEX-9", [], "GTEx subject GTEX-9"⟩ ∨
      (⟨"GTEX-9", [], "GTEx subject GTEX-9"⟩ : SubjectRec).characteristics = []) :=
  ⟨(c7_no_circular_links_noop GRU_NAME slEx dEx0 "all subjects" grpEx dEx1 (by decide)).1,
   (c7_no_circular_links_noop GRU_NAME slEx dEx0 "all subjects" grpEx dEx1 (by decide)).2
     "GTEX-1" ⟨"GTEX-1", [⟨"c", ["v"]⟩], "subj"⟩ (by decide),
   (c7_no_circular_links_noop GRU_NAME slEx dEx0 "all subjects" grpEx dEx1 (by decide)).2
     "GTEX-9" ⟨"GTEX-9", [], "GTEx subject GTEX-9"⟩ (by decide)⟩

/-! ### Claim C4 -/

theorem charsLe_refl : ∀ as : List Char, charsLe as as = true
  | [] => rfl
  | a :: as => by
    unfold charsLe
    rw [if_neg (by omega), if_neg (by omega)]
    exact charsLe_refl as

theorem strLe_refl (a : String) : strLe a a = true :=
  charsLe_refl a.data

theorem pairwise_of_all_eq {α : Type} {R : α → α → Prop} {c : α} :
    ∀ m : List α, (∀ y ∈ m, y = c) → R c c → m.Pairwise R
  | [], _, _ => List.Pairwise.nil
  | y :: m, hall, hc => by
    rw [List.pairwise_cons]
    constructor
    · intro z hz
      rw [hall y (List.mem_cons_self y m), hall z (List.mem_cons_of_mem y hz)]
      exact hc
    · exact pairwise_of_all_eq m (fun z hz => hall z (List.mem_cons_of_mem y hz)) hc

theorem rowsForDataset_block (dd : List (Term × List Term))
    (descrs dimids dimnames : List (Term × Term)) (di : Term × Term) (b : List Row)
    (h : rowsForDataset dd descrs dimids dimnames di = .ok b) :
    (∀ r ∈ b, r.study = di.2) ∧
    (b.map Row.var_dbgap_id).Pairwise (fun a c => strLe a c = true) := by
  unfold rowsForDataset at h
  split at h
  · exact absurd h (by simp)
  · split at h
    · exact absurd h (by simp)
    · simp only [Except.ok.injEq] at h
      subst h
      constructor
      · intro r hr
        rcases List.mem_map.mp hr with ⟨x, _, hx⟩
        rw [← hx]
      · haveI : IsTotal Dwa dwaLe := ⟨fun a c => strLe_total a.id c.id⟩
        haveI : IsTrans Dwa dwaLe := ⟨fun _ _ _ hab hbc => strLe_trans hab hbc⟩
        rw [List.map_map]
        exact List.pairwise_map.mpr (List.sorted_insertionSort dwaLe _)

theorem buildRows_struct :
    ∀ (l : List (Term × Term)) (dd : List (Term × List Term))
      (descrs dimids dimnames : List (Term × Term)) (rows : List Row),
      buildRows dd descrs dimids dimnames l = .ok rows →
      (l.map Prod.snd).Pairwise (fun a c => strLe a c = true) →
      (rows.map Row.study).Pairwise (fun a c => strLe a c = true) ∧
      (∀ r ∈ rows, ∃ di ∈ l, r.study = di.2)
  | [], dd, descrs, dimids, dimnames, rows => by
    intro h _
    unfold buildRows at h
    simp only [Except.ok.injEq] at h
    subst h
    exact ⟨List.Pairwise.nil, by simp⟩
  | di :: rest, dd, descrs, dimids, dimnames, rows => by
    intro h hsort
    unfold buildRows at h
    cases h1 : rowsForDataset dd descrs dimids dimnames di with
    | error e => rw [h1] at h; cases h
    | ok b =>
      rw [h1] at h
      cases h2 : buildRows dd descrs dimids dimnames rest with
      | error e => rw [h2] at h; cases h
      | ok r2 =>
        rw [h2] at h
        simp only [Except.ok.injEq] at h
        subst h
        rw [List.map_cons, List.pairwise_cons] at hsort
        have hblock := rowsForDataset_block dd descrs dimids dimnames di b h1
        have IH := buildRows_struct rest dd descrs dimids dimnames r2 h2 hsort.2
        refine ⟨?_, ?_⟩
        · rw [List.map_append, List.pairwise_append]
          refine ⟨?_, IH.1, ?_⟩
          · exact pairwise_of_all_eq _
              (fun y hy => by
                rcases List.mem_map.mp hy with ⟨r, hr, hry⟩
                rw [← hry]; exact hblock.1 r hr)
              (strLe_refl di.2)
          · intro x hx y hy
            rcases List.mem_map.mp hx with ⟨r, hr, hrx⟩
            rcases List.mem_map.mp hy with ⟨r3, hr3, hry⟩
            rcases IH.2 r3 hr3 with ⟨di3, hdi3, hst⟩
            rw [← hrx, hblock.1 r hr, ← hry, hst]
            exact hsort.1 di3.2 (List.mem_map.mpr ⟨di3, hdi3, rfl⟩)
        · intro r hr
          rcases List.mem_append.mp hr with hr | hr
          · exact ⟨di, List.mem_cons_self di rest, hblock.1 r hr⟩
          · rcases IH.2 r hr with ⟨di3, hdi3, hst⟩
            exact ⟨di3, List.mem_cons_of_mem di hdi3, hst⟩

theorem buildRows_blocks :
    ∀ (l : List (Term × Term)) (dd : List (Term × List Term))
      (descrs dimids dimnames : List (Term × Term)) (rows : List Row),
      buildRows dd descrs dimids dimnames l = .ok rows →
      ∃ blocks : List (List Row),
        List.Forall₂ (fun di b => rowsForDataset dd descrs dimids dimnames di = .ok b)
          l blocks ∧
        rows = blocks.flatten
  | [], dd, descrs, dimids, dimnames, rows => by
    intro h
    unfold buildRows at h
    simp only [Except.ok.injEq] at h
    subst h
    exact ⟨[], List.Forall₂.nil, rfl⟩
  | di :: rest, dd, descrs, dimids, dimnames, rows => by
    intro h
    unfold buildRows at h
    cases h1 : rowsForDataset dd descrs dimids dimnames di with
    | error e => rw [h1] at h; cases h
    | ok b =>
      rw [h1] at h
      cases h2 : buildRows dd descrs dimids dimnames rest with
      | error e => rw [h2] at h; cases h
      | ok r2 =>
        rw [h2] at h
        simp only [Except.ok.injEq] at h
        subst h
        obtain ⟨blocks, hf, hfl⟩ :=
          buildRows_blocks rest dd descrs dimids dimnames r2 h2
        exact ⟨b :: blocks, List.Forall₂.cons h1 hf, by rw [hfl]; rfl⟩

/-- Claim C4: the rows returned by `list_dataset_variables` are sorted
first by the dataset dbGaP study accession and, within each dataset, by the
variable dbGaP accession.  Concretely: the `study` column of `rows` is
non-decreasing, and `rows` is the concatenation of the per-dataset row
lists emitted by the final loop — one block per entry of the sorted
`datasets_with_ids` list, produced by `rowsForDataset` from the very
dictionaries the function built (so the decomposition is the code's own,
not an arbitrary one) — where each block carries that dataset's study
accession on every row and has non-decreasing variable accessions. -/
theorem c4_rows_sorted (g : Graph) (qid : Option Term) (rows : List Row)
    (h : list_dataset_variables g qid = .ok rows) :
    (rows.map Row.study).Pairwise (fun a c => strLe a c = true) ∧
    ∃ (datasets : List Term) (dim_descrs dim_ids dim_names : List (Term × Term))
      (dwis : List (Term × Term)) (blocks : List (List Row)),
      filterByDatasetId (datasetIdsAndList g).1 qid (datasetIdsAndList g).2 =
        .ok datasets ∧
      buildDimDictM (descrValsOf g) (datasetDimsDict g datasets) datasets [] =
        .ok dim_descrs ∧
      buildDimDictM (idValsOf g) (datasetDimsDict g datasets) datasets [] =
        .ok dim_ids ∧
      buildDimDictM (nameValsOf g) (datasetDimsDict g datasets) datasets [] =
        .ok dim_names ∧
      datasetsWithIds (datasetIdsAndList g).1 datasets = .ok dwis ∧
      ((List.insertionSort dwiLe dwis).map Prod.snd).Pairwise
        (fun a c => strLe a c = true) ∧
      rows = blocks.flatten ∧
      List.Forall₂ (fun di b =>
          rowsForDataset (datasetDimsDict g datasets)
            dim_descrs dim_ids dim_names di = .ok b ∧
          (∀ r ∈ b, r.study = di.2) ∧
          (b.map Row.var_dbgap_id).Pairwise (fun a c => strLe a c = true))
        (List.insertionSort dwiLe dwis) blocks := by
  simp only [list_dataset_variables] at h
  haveI : IsTotal (Term × Term) dwiLe := ⟨fun a c => strLe_total a.2 c.2⟩
  haveI : IsTrans (Term × Term) dwiLe := ⟨fun _ _ _ hab hbc => strLe_trans hab hbc⟩
  cases h1 : filterByDatasetId (datasetIdsAndList g).1 qid (datasetIdsAndList g).2 with
  | error e => rw [h1] at h; simp at h
  | ok datasets =>
    rw [h1] at h
    dsimp only at h
    cases h2 : buildDimDictM (descrValsOf g) (datasetDimsDict g datasets) datasets [] with
    | error e => rw [h2] at h; simp at h
    | ok dim_descrs =>
      rw [h2] at h
      dsimp only at h
      cases h3 : buildDimDictM (idValsOf g) (datasetDimsDict g datasets) datasets [] with
      | error e => rw [h3] at h; simp at h
      | ok dim_ids =>
        rw [h3] at h
        dsimp only at h
        cases h4 : buildDimDictM (nameValsOf g) (datasetDimsDict g datasets) datasets [] with
        | error e => rw [h4] at h; simp at h
        | ok dim_names =>
          rw [h4] at h
          dsimp only at h
          cases h5 : datasetsWithIds (datasetIdsAndList g).1 datasets with
          | error e => rw [h5] at h; simp at h
          | ok dwis =>
            rw [h5] at h
            dsimp only at h
            have hkeys : ((List.insertionSort dwiLe dwis).map Prod.snd).Pairwise
                (fun a c => strLe a c = true) :=
              List.pairwise_map.mpr (List.sorted_insertionSort dwiLe dwis)
            obtain ⟨blocks, hf, hfl⟩ := buildRows_blocks (List.insertionSort dwiLe dwis)
              (datasetDimsDict g datasets) dim_descrs dim_ids dim_names rows h
            refine ⟨(buildRows_struct (List.insertionSort dwiLe dwis)
                (datasetDimsDict g datasets) dim_descrs dim_ids dim_names rows h hkeys).1,
              datasets, dim_descrs, dim_ids, dim_names, dwis, blocks,
              rfl, h2, h3, h4, h5, hkeys, hfl, ?_⟩
            exact hf.imp (fun di b hr =>
              ⟨hr, (rowsForDataset_block (datasetDimsDict g datasets)
                dim_descrs dim_ids dim_names di b hr).1,
                (rowsForDataset_block (datasetDimsDict g datasets)
                  dim_descrs dim_ids dim_names di b hr).2⟩)

/-- Witness for C4 at the concrete graph `gEx`, whose two dimensions are
stored in reverse accession order and come back sorted. -/
theorem c4_witness :
    (rowsEx.map Row.study).Pairwise (fun a c => strLe a c = true) ∧
    ∃ (datasets : List Term) (dim_descrs dim_ids dim_names : List (Term × Term))
      (dwis : List (Term × Term)) (blocks : List (List Row)),
      filterByDatasetId (datasetIdsAndList gEx).1 none (datasetIdsAndList gEx).2 =
        .ok datasets ∧
      buildDimDictM (descrValsOf gEx) (datasetDimsDict gEx datasets) datasets [] =
        .ok dim_descrs ∧
      buildDimDictM (idValsOf gEx) (datasetDimsDict gEx datasets) datasets [] =
        .ok dim_ids ∧
      buildDimDictM (nameValsOf gEx) (datasetDimsDict gEx datasets) datasets [] =
        .ok dim_names ∧
      datasetsWithIds (datasetIdsAndList gEx).1 datasets = .ok dwis ∧
      ((List.insertionSort dwiLe dwis).map Prod.snd).Pairwise
        (fun a c => strLe a c = true) ∧
      rowsEx = blocks.flatten ∧
      List.Forall₂ (fun di b =>
          rowsForDataset (datasetDimsDict gEx datasets)
            dim_descrs dim_ids dim_names di = .ok b ∧
          (∀ r ∈ b, r.study = di.2) ∧
          (b.map Row.var_dbgap_id).Pairwise (fun a c => strLe a c = true))
        (List.insertionSort dwiLe dwis) blocks :=
  c4_rows_sorted gEx none rowsEx (by decide)

/-! ### Claim C3: fold lemmas for the dictionaries of `list_dataset_variables` -/

theorem dictContains_foldl_insert (vs : List Term) (d0 : List (Term × Term))
    (key k : Term) :
    dictContains (vs.foldl (fun dd v => dictInsert dd key v) d0) k =
      (dictContains d0 k || (k == key && !vs.isEmpty)) := by
  induction vs generalizing d0 with
  | nil => simp
  | cons v vs ih =>
    simp only [List.foldl_cons]
    rw [ih, dictContains_insert]
    cases hk : (k == key) <;> cases hc : dictContains d0 k <;>
      simp [hk, hc]

theorem datasetIdsAndList_inv (g : Graph) :
    ∀ d ∈ (datasetIdsAndList g).2, dictContains (datasetIdsAndList g).1 d = true := by
  have hfold : ∀ (l : List Term) (acc : List (Term × Term) × List Term),
      (∀ d ∈ acc.2, dictContains acc.1 d = true) →
      ∀ d ∈ (l.foldl (fun acc d =>
          ((idValsOf g d).foldl (fun ids v => dictInsert ids d v) acc.1,
            if dictContains ((idValsOf g d).foldl (fun ids v => dictInsert ids d v) acc.1) d
            then acc.2 ++ [d] else acc.2)) acc).2,
        dictContains (l.foldl (fun acc d =>
          ((idValsOf g d).foldl (fun ids v => dictInsert ids d v) acc.1,
            if dictContains ((idValsOf g d).foldl (fun ids v => dictInsert ids d v) acc.1) d
            then acc.2 ++ [d] else acc.2)) acc).1 d = true := by
    intro l
    induction l with
    | nil => intro acc hacc; exact hacc
    | cons x l ih =>
      intro acc hacc
      simp only [List.foldl_cons]
      apply ih
      intro d hd
      simp only [] at hd ⊢
      by_cases hc : dictContains
          ((idValsOf g x).foldl (fun ids v => dictInsert ids x v) acc.1) x = true
      · rw [if_pos hc] at hd
        rcases List.mem_append.mp hd with hd | hd
        · rw [dictContains_foldl_insert, hacc d hd]
          rfl
        · simp only [List.mem_singleton] at hd
          subst hd
          exact hc
      · rw [if_neg hc] at hd
        rw [dictContains_foldl_insert, hacc d hd]
        rfl
  have heq : datasetIdsAndList g =
      (all_datasets g).foldl (fun acc d =>
        ((idValsOf g d).foldl (fun ids v => dictInsert ids d v) acc.1,
          if dictContains ((idValsOf g d).foldl (fun ids v => dictInsert ids d v) acc.1) d
          then acc.2 ++ [d] else acc.2)) ([], []) := rfl
  rw [heq]
  exact hfold (all_datasets g) ([], []) (by simp)

theorem dictLookup_foldl_dims (g : Graph) :
    ∀ (l : List Term) (d0 : List (Term × List Term)) (d : Term),
      dictLookup (l.foldl (fun dd x => dictInsert dd x (dimsOf g x)) d0) d =
        if d ∈ l then some (dimsOf g d) else dictLookup d0 d
  | [], d0, d => by simp
  | x :: l, d0, d => by
    simp only [List.foldl_cons]
    rw [dictLookup_foldl_dims g l (dictInsert d0 x (dimsOf g x)) d]
    by_cases hdl : d ∈ l
    · rw [if_pos hdl, if_pos (List.mem_cons_of_mem x hdl)]
    · rw [if_neg hdl]
      by_cases hdx : d = x
      · subst hdx
        rw [dictLookup_insert_self, if_pos (List.mem_cons_self d l)]
      · rw [dictLookup_insert_ne d0 x d _ hdx,
          if_neg (by simp [List.mem_cons, hdx, hdl])]

theorem buildDimDictM_ok (g : Graph) (extract : Term → List Term) :
    ∀ (l : List Term) (dd : List (Term × List Term)) (acc : List (Term × Term)),
      (∀ d ∈ l, dictLookup dd d = some (dimsOf g d)) →
      buildDimDictM extract dd l acc =
        .ok (l.foldl (fun a d =>
          (dimsOf g d).foldl (fun a2 dim =>
            (extract dim).foldl (fun a3 v => dictInsert a3 dim v) a2) a) acc)
  | [], dd, acc, _ => rfl
  | x :: l, dd, acc, h => by
    unfold buildDimDictM
    have hx : dictGet dd x = .ok (dimsOf g x) :=
      (dictGet_ok_iff dd x (dimsOf g x)).mpr (h x (List.mem_cons_self x l))
    rw [hx]
    have hrec := buildDimDictM_ok g extract l dd
      ((dimsOf g x).foldl (fun a2 dim =>
        (extract dim).foldl (fun a3 v => dictInsert a3 dim v) a2) acc)
      (fun d hd => h d (List.mem_cons_of_mem x hd))
    rw [List.foldl_cons]
    exact hrec

theorem dictContains_dimFold (extract : Term → List Term) :
    ∀ (dims : List Term) (a : List (Term × Term)) (k : Term),
      dictContains (dims.foldl (fun a2 dim =>
        (extract dim).foldl (fun a3 v => dictInsert a3 dim v) a2) a) k =
      (dictContains a k || dims.any (fun dim => k == dim && !(extract dim).isEmpty))
  | [], a, k => by simp
  | dim :: dims, a, k => by
    simp only [List.foldl_cons, List.any_cons]
    rw [dictContains_dimFold extract dims _ k, dictContains_foldl_insert,
      Bool.or_assoc]

theorem dictContains_buildFold (g : Graph) (extract : Term → List Term) :
    ∀ (l : List Term) (acc : List (Term × Term)) (k : Term),
      dictContains (l.foldl (fun a d =>
        (dimsOf g d).foldl (fun a2 dim =>
          (extract dim).foldl (fun a3 v => dictInsert a3 dim v) a2) a) acc) k =
      (dictContains acc k ||
        l.any (fun d => (dimsOf g d).any (fun dim => k == dim && !(extract dim).isEmpty)))
  | [], acc, k => by simp
  | d :: l, acc, k => by
    simp only [List.foldl_cons, List.any_cons]
    rw [dictContains_buildFold g extract l _ k, dictContains_dimFold extract,
      Bool.or_assoc]

theorem isDimension_of_mem_dimsOf (g : Graph) (d dim : Term) (h : dim ∈ dimsOf g d) :
    isDimension g dim = true ∧ dim ∈ g.map (·.1) := by
  unfold dimsOf at h
  rcases List.mem_flatMap.mp h with ⟨t, ht, hmap⟩
  rcases List.mem_map.mp hmap with ⟨t2, ht2, hdim⟩
  subst hdim
  constructor
  · unfold isDimension
    cases hE : (triples g (some t.2.2) (some RDF_TYPE_TERM) (some DATS_DIMENSION_TERM)).isEmpty
    · rfl
    · rw [List.isEmpty_iff] at hE
      rw [hE] at ht2
      exact absurd ht2 (List.not_mem_nil t2)
  · have hmem := List.mem_filter.mp ht2
    have hm := hmem.2
    unfold tripleMatches at hm
    simp only [Bool.and_eq_true, beq_iff_eq] at hm
    exact List.mem_map.mpr ⟨t2, hmem.1, hm.1.1⟩

theorem filterByDatasetId_ok (ids : List (Term × Term)) (qid : Option Term) :
    ∀ l : List Term, (∀ d ∈ l, dictContains ids d = true) →
      ∃ r, filterByDatasetId ids qid l = .ok r ∧ ∀ d ∈ r, d ∈ l
  | [], _ => by
    refine ⟨[], ?_, by simp⟩
    cases qid <;> rfl
  | d :: l, h => by
    rcases filterByDatasetId_ok ids qid l
      (fun d2 hd2 => h d2 (List.mem_cons_of_mem d hd2)) with ⟨r, hr, hmem⟩
    cases qid with
    | none =>
      refine ⟨d :: r, ?_, ?_⟩
      · simp only [filterByDatasetId, hr]
      · intro d2 hd2
        rcases List.mem_cons.mp hd2 with hd2 | hd2
        · subst hd2; exact List.mem_cons_self _ _
        · exact List.mem_cons_of_mem d (hmem d2 hd2)
    | some q =>
      rcases dictGet_of_contains ids d (h d (List.mem_cons_self d l)) with ⟨i, hi⟩
      refine ⟨if q == i then d :: r else r, ?_, ?_⟩
      · simp only [filterByDatasetId, hr, hi]
      · intro d2 hd2
        by_cases hq : (q == i) = true
        · rw [if_pos hq] at hd2
          rcases List.mem_cons.mp hd2 with hd2 | hd2
          · subst hd2; exact List.mem_cons_self _ _
          · exact List.mem_cons_of_mem d (hmem d2 hd2)
        · rw [if_neg hq] at hd2
          exact List.mem_cons_of_mem d (hmem d2 hd2)

theorem dimsWithAtts_ok :
    ∀ (dims : List Term) (descrs dimids dimnames : List (Term × Term)),
      (∀ dim ∈ dims, dictContains dimids dim = true →
        dictContains descrs dim = true ∧ dictContains dimnames dim = true) →
      ∃ r, dimsWithAtts descrs dimids dimnames dims = .ok r
  | [], _, _, _, _ => ⟨[], rfl⟩
  | dim :: rest, descrs, dimids, dimnames, h => by
    rcases dimsWithAtts_ok rest descrs dimids dimnames
      (fun u hu hcu => h u (List.mem_cons_of_mem dim hu) hcu) with ⟨r, hr⟩
    unfold dimsWithAtts
    by_cases hc : dictContains dimids dim = true
    · rw [if_pos hc]
      rcases h dim (List.mem_cons_self dim rest) hc with ⟨hd, hn⟩
      rcases dictGet_of_contains descrs dim hd with ⟨vd, hvd⟩
      rcases dictGet_of_contains dimids dim hc with ⟨vi, hvi⟩
      rcases dictGet_of_contains dimnames dim hn with ⟨vn, hvn⟩
      rw [hvd, hvi, hvn, hr]
      exact ⟨_, rfl⟩
    · rw [if_neg hc]
      exact ⟨r, hr⟩

theorem datasetsWithIds_ok :
    ∀ (ids : List (Term × Term)) (l : List Term),
      ∃ dwis, datasetsWithIds ids l = .ok dwis ∧ ∀ di ∈ dwis, di.1 ∈ l
  | _, [] => ⟨[], rfl, by simp⟩
  | ids, d :: l => by
    rcases datasetsWithIds_ok ids l with ⟨dwis, hd, hmem⟩
    unfold datasetsWithIds
    by_cases hc : dictContains ids d = true
    · rw [if_pos hc]
      rcases dictGet_of_contains ids d hc with ⟨v, hv⟩
      rw [hv, hd]
      refine ⟨(d, v) :: dwis, rfl, ?_⟩
      intro di hdi
      rcases List.mem_cons.mp hdi with h2 | h2
      · subst h2; exact List.mem_cons_self _ _
      · exact List.mem_cons_of_mem d (hmem di h2)
    · rw [if_neg hc, hd]
      exact ⟨dwis, rfl, fun di hdi => List.mem_cons_of_mem d (hmem di hdi)⟩

theorem rowsForDataset_ok (dd : List (Term × List Term))
    (descrs dimids dimnames : List (Term × Term)) (di : Term × Term) (dims : List Term)
    (hdd : dictLookup dd di.1 = some dims)
    (h : ∀ dim ∈ dims, dictContains dimids dim = true →
      dictContains descrs dim = true ∧ dictContains dimnames dim = true) :
    ∃ b, rowsForDataset dd descrs dimids dimnames di = .ok b := by
  unfold rowsForDataset
  rw [(dictGet_ok_iff dd di.1 dims).mpr hdd]
  dsimp only
  rcases dimsWithAtts_ok dims descrs dimids dimnames h with ⟨r, hr⟩
  rw [hr]
  exact ⟨_, rfl⟩

theorem buildRows_ok :
    ∀ (l : List (Term × Term)) (dd : List (Term × List Term))
      (descrs dimids dimnames : List (Term × Term)),
      (∀ di ∈ l, ∃ b, rowsForDataset dd descrs dimids dimnames di = .ok b) →
      ∃ rows, buildRows dd descrs dimids dimnames l = .ok rows
  | [], _, _, _, _, _ => ⟨[], rfl⟩
  | di :: l, dd, descrs, dimids, dimnames, h => by
    unfold buildRows
    rcases h di (List.mem_cons_self di l) with ⟨b, hb⟩
    rcases buildRows_ok l dd descrs dimids dimnames
      (fun di2 hdi2 => h di2 (List.mem_cons_of_mem di hdi2)) with ⟨rows, hrows⟩
    rw [hb, hrows]
    exact ⟨_, rfl⟩

/-- Claim C3 (amended): a join step that matches zero objects — a predicate
absent, a type mismatch, or a Dimension lacking an identifier — never makes
`list_dataset_variables` raise: whenever every typed Dimension that has an
identifier also has a description and a name value (`allDimsComplete`), the
query completes normally with a (possibly empty) result list.  (Per the
counterexample, a Dimension that has an identifier but lacks a description
or a name value instead raises a `KeyError`.) -/
theorem c3_amended_zero_match_no_error (g : Graph) (qid : Option Term)
    (H : allDimsComplete g = true) :
    ∃ rows, list_dataset_variables g qid = .ok rows := by
  simp only [list_dataset_variables]
  obtain ⟨ds, hds, hsub⟩ :=
    filterByDatasetId_ok (datasetIdsAndList g).1 qid (datasetIdsAndList g).2
      (datasetIdsAndList_inv g)
  rw [hds]
  dsimp only
  have hdd : ∀ d ∈ ds, dictLookup (datasetDimsDict g ds) d = some (dimsOf g d) := by
    intro d hd
    have := dictLookup_foldl_dims g ds [] d
    rw [if_pos hd] at this
    exact this
  rw [buildDimDictM_ok g (descrValsOf g) ds (datasetDimsDict g ds) [] hdd]
  dsimp only
  rw [buildDimDictM_ok g (idValsOf g) ds (datasetDimsDict g ds) [] hdd]
  dsimp only
  rw [buildDimDictM_ok g (nameValsOf g) ds (datasetDimsDict g ds) [] hdd]
  dsimp only
  obtain ⟨dwis, hdwis, hdwismem⟩ := datasetsWithIds_ok (datasetIdsAndList g).1 ds
  rw [hdwis]
  dsimp only
  have hforall : ∀ di ∈ List.insertionSort dwiLe dwis,
      ∃ b, rowsForDataset (datasetDimsDict g ds)
        (ds.foldl (fun a d =>
          (dimsOf g d).foldl (fun a2 dim =>
            (descrValsOf g dim).foldl (fun a3 v => dictInsert a3 dim v) a2) a) [])
        (ds.foldl (fun a d =>
          (dimsOf g d).foldl (fun a2 dim =>
            (idValsOf g dim).foldl (fun a3 v => dictInsert a3 dim v) a2) a) [])
        (ds.foldl (fun a d =>
          (dimsOf g d).foldl (fun a2 dim =>
            (nameValsOf g dim).foldl (fun a3 v => dictInsert a3 dim v) a2) a) [])
        di = .ok b := by
    intro di hdimem
    have hd1 : di.1 ∈ ds :=
      hdwismem di ((List.perm_insertionSort dwiLe dwis).mem_iff.mp hdimem)
    apply rowsForDataset_ok _ _ _ _ _ (dimsOf g di.1) (hdd di.1 hd1)
    intro dim hdim hcontains
    rw [dictContains_buildFold g (idValsOf g) ds [] dim] at hcontains
    have hcontains2 : ds.any (fun d =>
        (dimsOf g d).any (fun dim2 => dim == dim2 && !(idValsOf g dim2).isEmpty)) = true := by
      cases hq : ds.any (fun d =>
          (dimsOf g d).any (fun dim2 => dim == dim2 && !(idValsOf g dim2).isEmpty))
      · rw [hq] at hcontains
        simp [dictContains, dictLookup] at hcontains
      · rfl
    have hchain : idChain g dim = true := by
      rcases List.any_eq_true.mp hcontains2 with ⟨d2, hd2, hany⟩
      rcases List.any_eq_true.mp hany with ⟨dim2, hdim2, hco⟩
      simp only [Bool.and_eq_true, beq_iff_eq] at hco
      unfold idChain
      rw [hco.1]
      exact hco.2
    have hdimfacts := isDimension_of_mem_dimsOf g di.1 dim hdim
    have hH := (List.all_eq_true.mp H) dim hdimfacts.2
    rw [hdimfacts.1, hchain] at hH
    simp only [Bool.and_self, Bool.not_true, Bool.false_or, Bool.and_eq_true] at hH
    constructor
    · rw [dictContains_buildFold g (descrValsOf g) ds [] dim]
      have hany : ds.any (fun d => (dimsOf g d).any
          (fun dim2 => dim == dim2 && !(descrValsOf g dim2).isEmpty)) = true :=
        List.any_eq_true.mpr ⟨di.1, hd1, List.any_eq_true.mpr ⟨dim, hdim, by
          simp only [Bool.and_eq_true, beq_iff_eq, eq_self_iff_true, true_and]
          exact hH.1⟩⟩
      rw [hany]
      simp
    · rw [dictContains_buildFold g (nameValsOf g) ds [] dim]
      have hany : ds.any (fun d => (dimsOf g d).any
          (fun dim2 => dim == dim2 && !(nameValsOf g dim2).isEmpty)) = true :=
        List.any_eq_true.mpr ⟨di.1, hd1, List.any_eq_true.mpr ⟨dim, hdim, by
          simp only [Bool.and_eq_true, beq_iff_eq, eq_self_iff_true, true_and]
          exact hH.2⟩⟩
      rw [hany]
      simp
  obtain ⟨rows, hrows⟩ := buildRows_ok (List.insertionSort dwiLe dwis)
    (datasetDimsDict g ds) _ _ _ hforall
  rw [hrows]
  exact ⟨rows, rfl⟩

/-- Witness for C3 (amended) at the complete graph `gEx`. -/
theorem c3_witness : ∃ rows, list_dataset_variables gEx none = .ok rows :=
  c3_amended_zero_match_no_error gEx none (by decide)
